import Mathlib

/-!
Verification of the ontoeval diff-comparison pipeline.

The development shallowly embeds the parts of the `ontoeval` Python package
that the verified properties talk about:

* `src/ontoeval/models.py` — the `Change` alias, the `Comparison` base model,
  `GitHubComment` / `GitHubIssue` / `PRBenchmark` and their methods
  (`calculate_input_text`, `get_added_term_ids`).
* `src/ontoeval/judges/llm_judge.py` — `LLMJudgeComparison`,
  `compare_diffs_impl` (with its joblib cache) and the `compare_diffs` wrapper.
* `src/ontoeval/renderers/markdown.py` — `render_change`, `render_result_iter`.
* `src/ontoeval/cli.py` (`run_all`) — the per-PR comparison/judging step.

The metadiff comparison engine itself (`ontoeval.judges.metadiff_judge`) is
imported by the CLI and the renderer but its module is not part of the
checked sources; where needed it is modelled from the specification text, and
each such definition carries a doc comment saying so.

Python strings are modelled as Lean `String`, Python `float` scores as `Rat`,
`datetime` values as `Int` (only their ordering matters), and fallible
attribute access as `Option` / `Except`.
-/

namespace Ontoeval

/-- Python `str.split(sep)` for a single-character separator, on the
underlying character list: `splitOnChar c cs` returns the (possibly empty)
segments between occurrences of `c`, so `split '\n' "" = [""]` like Python. -/
def splitOnChar (sep : Char) : List Char → List (List Char)
  | [] => [[]]
  | c :: rest =>
    match splitOnChar sep rest with
    | [] => [[c]]
    | h :: t => if c = sep then [] :: h :: t else (c :: h) :: t

/-- Python `s.split(sep)` for a one-character separator `sep`. -/
def pySplit (sep : Char) (s : String) : List String :=
  (splitOnChar sep s.data).map (fun cs => ⟨cs⟩)

/-- Boolean test that the second list is an initial segment of the first. -/
def startsWithList [DecidableEq α] : List α → List α → Bool
  | _, [] => true
  | [], _ :: _ => false
  | a :: as, b :: bs => a = b && startsWithList as bs

/-- Python `str.startswith` on strings. -/
def pyStartsWith (s pre : String) : Bool :=
  startsWithList s.data pre.data

/-- Python `str.strip()`: drop leading and trailing whitespace. -/
def pyStrip (s : String) : String :=
  ⟨((s.data.dropWhile Char.isWhitespace).reverse.dropWhile Char.isWhitespace).reverse⟩

/-- Python `str.rstrip()`: drop trailing whitespace. -/
def pyRstrip (s : String) : String :=
  ⟨(s.data.reverse.dropWhile Char.isWhitespace).reverse⟩

/-- Python `s[n:]` on strings. -/
def pyDrop (n : Nat) (s : String) : String := ⟨s.data.drop n⟩

/-- Fuel-driven core of Python `str.replace(pat, rep)` (non-empty `pat`):
replaces non-overlapping occurrences left to right. The fuel is an upper
bound on the number of characters still to be consumed. -/
def replaceAllAux (pat rep : List Char) : Nat → List Char → List Char
  | 0, cs => cs
  | n + 1, cs =>
    match cs with
    | [] => []
    | c :: rest =>
      if pat ≠ [] ∧ startsWithList cs pat = true then
        rep ++ replaceAllAux pat rep n (cs.drop pat.length)
      else
        c :: replaceAllAux pat rep n rest

/-- Python `s.replace(pat, rep)` for a non-empty pattern `pat`. -/
def pyReplace (s pat rep : String) : String :=
  ⟨replaceAllAux pat.data rep.data s.data.length s.data⟩

/-- Python `sep.join(l)`. -/
def pyJoin (sep : String) : List String → String
  | [] => ""
  | [s] => s
  | s :: rest => s ++ sep ++ pyJoin sep rest

/-- Python `"\n".join(l)`, the list-of-lines to text conversion used for
diff arguments. -/
def joinLines (l : List String) : String := pyJoin "\n" l

/-- Python `str(x)` applied to an `Optional[str]`: `None` prints as "None". -/
def pyStrOpt : Option String → String
  | none => "None"
  | some s => s

/-- Change, from models.py line 8: `Change = tuple[int, str]`, a direction
tag (1 for an added line, -1 for a removed line) and the line text. -/
abbrev Change := Int × String

/-- A diff argument as accepted by the judges: either a unified-diff text or
a pre-split ordered list of lines (`str | list[str]` in the Python sources). -/
inductive DiffArg where
  | str (s : String)
  | lines (l : List String)
deriving DecidableEq, Repr

/-- Normalization of a diff argument to a single text: a list of lines is
joined with newlines (as in `compare_diffs_impl`, llm_judge.py lines 76-79). -/
def normalizeDiffArg : DiffArg → String
  | .str s => s
  | .lines l => joinLines l

namespace metadiff_judge

/-- Modelled from the spec: section 4.1 line classification of the metadiff
engine (module `ontoeval.judges.metadiff_judge`, absent from the checked
sources). A line starting with `+` but not `+++` is an ADDED change, a line
starting with `-` but not `---` is a REMOVED change, any other line is
discarded; the marker is stripped and trailing whitespace removed. -/
def parseLine (line : String) : Option Change :=
  if pyStartsWith line "+" && !(pyStartsWith line "+++") then
    some (1, pyRstrip (pyDrop 1 line))
  else if pyStartsWith line "-" && !(pyStartsWith line "---") then
    some (-1, pyRstrip (pyDrop 1 line))
  else none

/-- Modelled from the spec: section 4.1 `parse` of the metadiff engine,
applied to an already-normalized diff text. -/
def parseDiffText (t : String) : List Change :=
  (pySplit '\n' t).filterMap parseLine

/-- Deduplication keeping the first occurrence of each change, used to build
the set view of a parsed diff (spec section 4.2 step 3). -/
def dedupAux (seen : List Change) : List Change → List Change
  | [] => []
  | c :: rest =>
    if c ∈ seen then dedupAux seen rest else c :: dedupAux (c :: seen) rest

/-- Modelled from the spec: the deduplicated set view of one side's changes
(spec section 4.2 step 3), in first-occurrence order. -/
def sdOf (d : DiffArg) : List Change :=
  dedupAux [] (parseDiffText (normalizeDiffArg d))

/-- Modelled from the spec: changes of `d1` also present in `d2`
(spec section 4.2 step 4), in the order they appear in `d1`. -/
def interOf (d1 d2 : DiffArg) : List Change :=
  (sdOf d1).filter (fun c => decide (c ∈ sdOf d2))

/-- Modelled from the spec: changes of `d1` absent from `d2`
(spec section 4.2 step 4). -/
def uniqueOf (d1 d2 : DiffArg) : List Change :=
  (sdOf d1).filter (fun c => !decide (c ∈ sdOf d2))

/-- Modelled from the spec: the deduplicated union of the two change sets,
`d1`'s set followed by the changes unique to `d2` (spec section 4.2 step 5). -/
def unionOf (d1 d2 : DiffArg) : List Change :=
  sdOf d1 ++ uniqueOf d2 d1

/-- Modelled from the spec: the comparison result shape of the metadiff
engine (spec section 3 "Comparison Result"; `similarity` is the shared
`Comparison` field from models.py lines 31-34). -/
structure MetadiffComparison where
  similarity : Rat
  identical : Bool
  changes_in_common : List Change
  changes_in_diff1 : List Change
  changes_in_diff2 : List Change
  metadiff : List String
  metadiff_color_html : String
deriving DecidableEq, Repr

/-- Modelled from the spec: one display line of the merged metadiff, a
classification tag followed by the direction marker and the text
(spec section 4.2 step 6). -/
def metadiffTagLine (tag : String) (c : Change) : String :=
  tag ++ (if c.1 = 1 then "+" else "-") ++ c.2

/-- Modelled from the spec: one markup line of the colorized metadiff, the
classification carried by a span class (spec section 4.2 step 7). -/
def htmlSpan (cls line : String) : String :=
  "<span class=" ++ cls ++ ">" ++ line ++ "</span>"

/-- Modelled from the spec: `compare` of the metadiff engine (spec section
4.2; module `ontoeval.judges.metadiff_judge`, absent from the checked
sources). Both inputs are normalized, parsed and deduplicated; `identical`
is raw-text equality after trimming (step 2); the three change lists
partition the two sets (step 4); `similarity` is the Jaccard-style ratio
with the empty/empty case sent to 1 (step 5). -/
def compare_diffs (diff1 diff2 : DiffArg) : MetadiffComparison :=
  { similarity :=
      if (unionOf diff1 diff2).isEmpty then 1
      else ((interOf diff1 diff2).length : Rat) / ((unionOf diff1 diff2).length : Rat)
    identical :=
      decide (pyStrip (normalizeDiffArg diff1) = pyStrip (normalizeDiffArg diff2))
    changes_in_common := interOf diff1 diff2
    changes_in_diff1 := uniqueOf diff1 diff2
    changes_in_diff2 := uniqueOf diff2 diff1
    metadiff :=
      (interOf diff1 diff2).map (metadiffTagLine " ")
        ++ (uniqueOf diff1 diff2).map (metadiffTagLine "<")
        ++ (uniqueOf diff2 diff1).map (metadiffTagLine ">")
    metadiff_color_html :=
      pyJoin "\n"
        ((interOf diff1 diff2).map (fun c => htmlSpan "common" (metadiffTagLine " " c))
          ++ (uniqueOf diff1 diff2).map (fun c => htmlSpan "target-only" (metadiffTagLine "<" c))
          ++ (uniqueOf diff2 diff1).map (fun c => htmlSpan "predicted-only" (metadiffTagLine ">" c))) }

end metadiff_judge

/-- Pydantic validation of the `similarity` field shared by all comparison
results (models.py line 34 and llm_judge.py line 51): the field is declared
`float` with only a description, without `ge`/`le` bounds, so validation
accepts every value. -/
def validateSimilarity (x : Rat) : Except String Rat := .ok x

/-- ProposedChangeEvaluation, from llm_judge.py lines 28-44. -/
structure ProposedChangeEvaluation where
  overall_score : Rat
  evaluation : String
  incorrect_changes : List String
  missing_changes : List String
deriving DecidableEq, Repr

/-- LLMJudgeComparison, from llm_judge.py lines 46-63: the LLM judge's
`Comparison` subtype (it inherits the `similarity` field). -/
structure LLMJudgeComparison where
  similarity : Rat
  difficulty : Rat
  issue_clarity : Rat
  logical_consistency : Rat
  confidence : Rat
  suggestions_for_users : String
  left_evaluation : ProposedChangeEvaluation
  right_evaluation : ProposedChangeEvaluation
  score_diff : Rat
  comments : String
deriving DecidableEq, Repr

/-- GitHubComment, from models.py lines 36-47 (the fields the verified
methods read; `created_at` is a totally ordered timestamp). -/
structure GitHubComment where
  id : String
  author : String
  body : String
  created_at : Int
deriving DecidableEq, Repr

/-- GitHubIssue, from models.py lines 50-71 and 92-101 (the fields the
verified methods read). -/
structure GitHubIssue where
  number : Nat
  title : String
  body : Option String
  url : String
  author : String
  created_at : Int
  labels : List String
  comments : List GitHubComment
deriving DecidableEq, Repr

/-- The value stored under a judge name in `PRBenchmark.comparisons`
(models.py line 137): a `Comparison` subtype tagged by the judge that
produced it. -/
inductive JudgeOutput where
  | metadiff (c : metadiff_judge.MetadiffComparison)
  | llm (c : LLMJudgeComparison)
deriving DecidableEq, Repr

/-- PRBenchmark, from models.py lines 104-137 (the fields the verified
methods and the `run_all` step read or write; `number` and `pr_number` are
kept synchronized by the model's constructor, so a single field stands for
both). `comparisons` is the judge-name-keyed mapping, as an association
list in insertion order. -/
structure PRBenchmark where
  number : Nat
  title : String
  body : Option String
  url : String
  created_at : Int
  linked_issues : List GitHubIssue
  diff : Option String
  predicted_diff : Option String := none
  predicted_diff_identical : Option Bool := none
  predicted_diff_metadiff : Option (List String) := none
  predicted_diff_similarity : Option Rat := none
  predicted_diff_changes_in_common : Option (List Change) := none
  changes_unique_to_target : Option (List Change) := none
  changes_unique_to_prediction : Option (List Change) := none
  comparisons : List (String × JudgeOutput) := []
deriving Repr

/-- `pr_number` (models.py line 107), synchronized with `number`. -/
def PRBenchmark.pr_number (r : PRBenchmark) : Nat := r.number

/-- One comment block of `calculate_input_text` (models.py line 245). -/
def commentBlock (c : GitHubComment) : String :=
  "Comment:\nAuthor: " ++ c.author ++ "\n<comment>\n" ++ c.body ++ "\n</comment>"

/-- The issue header block of `calculate_input_text` (models.py line 241). -/
def issueHeaderBlock (i : GitHubIssue) : String :=
  "## Issue " ++ toString i.number ++ "\nAuthor: " ++ i.author
    ++ "\nBody:\n<body>\n" ++ pyStrOpt i.body ++ "\n</body>"

/-- The inner comment loop of `calculate_input_text` (models.py lines
243-246): comments are emitted in order and the loop breaks at the first
comment created at or after the cutoff when post-PR comments are excluded. -/
def commentLoop (exclude : Bool) (cutoff : Int) : List GitHubComment → List String
  | [] => []
  | c :: rest =>
    if c.created_at ≥ cutoff ∧ exclude = true then []
    else commentBlock c :: commentLoop exclude cutoff rest

/-- The outer issue loop of `calculate_input_text` (models.py lines
237-246): issues created strictly after the cutoff are skipped; otherwise
the header block is emitted, then the comment loop (guarded by the truthiness
test `if issue.comments:`). -/
def issueLoop (exclude : Bool) (cutoff : Int) : List GitHubIssue → List String
  | [] => []
  | i :: rest =>
    if i.created_at > cutoff then issueLoop exclude cutoff rest
    else
      (issueHeaderBlock i
          :: (if i.comments.isEmpty then [] else commentLoop exclude cutoff i.comments))
        ++ issueLoop exclude cutoff rest

/-- `PRBenchmark.calculate_input_text` (models.py lines 224-246): the PR's
own creation date is the cutoff and the collected blocks are joined with
blank lines. -/
def PRBenchmark.calculate_input_text (r : PRBenchmark)
    (exclude_post_pr_comments : Bool := true) : String :=
  pyJoin "\n\n" (issueLoop exclude_post_pr_comments r.created_at r.linked_issues)

/-- The loop body of `PRBenchmark.get_added_term_ids` (models.py lines
167-179): a state machine over the diff lines; a `+[Term]` line arms the
flag, and the first subsequent `+id: ` line is emitted with every occurrence
of `+id: ` removed (Python `line.replace('+id: ', '')`) and stripped,
disarming the flag. -/
def addedTermIdsGo : List String → Bool → List String
  | [], _ => []
  | line :: rest, inNewTerm =>
    if pyStartsWith line "+[Term]" then addedTermIdsGo rest true
    else if pyStartsWith line "+id: " && inNewTerm then
      pyStrip (pyReplace line "+id: " "") :: addedTermIdsGo rest false
    else addedTermIdsGo rest inNewTerm

/-- `PRBenchmark.get_added_term_ids` (models.py lines 165-179). When `diff`
is `None`, `self.diff.split('\n')` raises `AttributeError`, modelled as an
error value. -/
def PRBenchmark.get_added_term_ids (r : PRBenchmark) : Except String (List String) :=
  match r.diff with
  | none => .error "AttributeError"
  | some d => .ok (addedTermIdsGo (pySplit '\n' d) false)

namespace llm_judge

/-- The unused prompt text built inside `compare_diffs_impl`
(llm_judge.py lines 80-83). -/
def judgePrompt (issue_text : String) : String :=
  "\n    User Issue:\n    " ++ issue_text ++ "\n    "

/-- The input given to `agent.run_sync` in `compare_diffs_impl`
(llm_judge.py line 85). -/
def agentInput (d1 d2 : String) : String :=
  "Left Diff:\n" ++ d1 ++ "\n\nRight Diff:\n" ++ d2

/-- `compare_diffs_impl` (llm_judge.py lines 75-88): each diff argument is
joined with newlines when it is a list, and the external LLM agent — here an
explicit function parameter `agentRun`, the only effectful collaborator — is
run on the assembled input. The prompt built from `issue_text` is computed
but never passed to the agent, exactly as in the source. -/
def compare_diffs_impl (agentRun : String → LLMJudgeComparison)
    (diff1 diff2 : DiffArg) (issue_text : String) : LLMJudgeComparison :=
  let d1 := normalizeDiffArg diff1
  let d2 := normalizeDiffArg diff2
  let _prompt := judgePrompt issue_text
  agentRun (agentInput d1 d2)

/-- The joblib cache key of the `@memory.cache` wrapper on
`compare_diffs_impl` (llm_judge.py lines 6 and 74): joblib hashes the raw
call arguments `(diff1, diff2, issue_text)` exactly as supplied, before the
list-to-string normalization inside the function body, so two calls share a
cache entry precisely when their raw arguments are equal. -/
def cacheKey (diff1 diff2 : DiffArg) (issue_text : String) :
    DiffArg × DiffArg × String :=
  (diff1, diff2, issue_text)

/-- `compare_diffs` of the LLM judge (llm_judge.py lines 71-72): delegates
to `compare_diffs_impl` with the PR's input text, computed with post-PR
comments included. -/
def compare_diffs (agentRun : String → LLMJudgeComparison)
    (diff1 diff2 : DiffArg) (pr_benchmark : PRBenchmark) : LLMJudgeComparison :=
  compare_diffs_impl agentRun diff1 diff2 (pr_benchmark.calculate_input_text false)

end llm_judge

namespace markdown

/-- `render_change` (markdown.py lines 14-23): a change renders as a
markdown bullet, `ADD` when the direction equals 1 and `DEL` otherwise,
with the text in backquotes and a trailing newline. Total, so it never
raises. -/
def render_change (chg : Change) : String :=
  let txt := if chg.1 = 1 then "ADD" else "DEL"
  "- " ++ txt ++ " :: `" ++ chg.2 ++ "`\n"

/-- Association-list lookup standing for the Python dict access on
`r.comparisons` (first matching key wins; keys are unique in the source). -/
def lookupJudge (k : String) : List (String × JudgeOutput) → Option JudgeOutput
  | [] => none
  | (k', v) :: rest => if k = k' then some v else lookupJudge k rest

/-- `render_result_iter` (markdown.py lines 25-57) as the list of yielded
strings. The Python code fetches `r.comparisons["metadiff_judge"]` and
`r.comparisons.get("llm_judge")` and then reads metadiff fields from the
first and calls `model_dump` on the second, raising (`KeyError` /
`AttributeError`) when either is missing or of the wrong judge type; those
failures are the `none` branch. The external `yaml.dump` serialization is an
explicit function parameter. -/
def render_result_iter (yamlDump : LLMJudgeComparison → String)
    (r : PRBenchmark) : Option (List String) :=
  match lookupJudge "metadiff_judge" r.comparisons,
      lookupJudge "llm_judge" r.comparisons with
  | some (.metadiff md_judge), some (.llm llmj) =>
    some
      (["# " ++ toString r.pr_number ++ " - " ++ r.title,
        "\n - [" ++ r.url ++ "](" ++ r.url ++ ")\n",
        "\n" ++ pyStrOpt r.body ++ "\n",
        "## Metadiff (" ++ toString md_judge.similarity ++ ")\n",
        md_judge.metadiff_color_html,
        "Unique to target:\n"]
        ++ md_judge.changes_in_diff1.map render_change
        ++ ["Unique to prediction:\n"]
        ++ md_judge.changes_in_diff2.map render_change
        ++ ["## LLM Judge\n", "```yaml", yamlDump llmj, "```", "\n## Issues\n"]
        ++ r.linked_issues.flatMap
          (fun issue => ["- [" ++ issue.title ++ "](" ++ issue.url ++ ")\n",
            pyStrOpt issue.body]))
  | _, _ => none

/-- `render_result` (markdown.py lines 8-12): the yielded strings joined
with newlines. -/
def render_result (yamlDump : LLMJudgeComparison → String)
    (r : PRBenchmark) : Option String :=
  (render_result_iter yamlDump r).map (pyJoin "\n")

end markdown

namespace cli

/-- The judge name used as key in `pr.comparisons`
(cli.py line 264): `judge.__name__.split(".")[-1]`. -/
def judgeKey (moduleName : String) : String :=
  (pySplit '.' moduleName).getLastD ""

/-- The per-PR comparison and judging step of `run_all` (cli.py lines
246-264), for one PR whose agent run produced `resultDiff`. The target diff
is `pr.diff` (cli.py line 247 reads it directly; `none` would raise inside
the engine, modelled as `none` here). The comparison fields are flattened
onto the record, then each judge that runs adds one entry to `comparisons`
keyed by its module name's last dotted component; the LLM judge runs only
when the `--use-llm-judge` option is enabled. -/
def processPR (agentRun : String → LLMJudgeComparison) (useLlm : Bool)
    (pr : PRBenchmark) (resultDiff : String) : Option PRBenchmark :=
  match pr.diff with
  | none => none
  | some target =>
    let comparison := metadiff_judge.compare_diffs (.str target) (.str resultDiff)
    let pr1 := { pr with
      predicted_diff := some resultDiff
      predicted_diff_identical := some comparison.identical
      predicted_diff_metadiff := some comparison.metadiff
      predicted_diff_similarity := some comparison.similarity
      predicted_diff_changes_in_common := some comparison.changes_in_common
      changes_unique_to_target := some comparison.changes_in_diff1
      changes_unique_to_prediction := some comparison.changes_in_diff2 }
    let entries :=
      (judgeKey "ontoeval.judges.metadiff_judge",
          JudgeOutput.metadiff (metadiff_judge.compare_diffs (.str target) (.str resultDiff)))
        :: (if useLlm then
            [(judgeKey "ontoeval.judges.llm_judge",
              JudgeOutput.llm (llm_judge.compare_diffs agentRun (.str target) (.str resultDiff) pr1))]
          else [])
    some { pr1 with comparisons := entries }

end cli

/-- A state machine companion to `addedTermIdsGo` returning the raw diff
lines that `get_added_term_ids` selects: the first `+id: `-prefixed line
after each `+[Term]` line. -/
def selectAddedIdLines : List String → Bool → List String
  | [], _ => []
  | line :: rest, inNewTerm =>
    if pyStartsWith line "+[Term]" then selectAddedIdLines rest true
    else if pyStartsWith line "+id: " && inNewTerm then
      line :: selectAddedIdLines rest false
    else selectAddedIdLines rest inNewTerm

/-- The claimed reading of `get_added_term_ids`, following the claim's words:
for each selected line keep the text following the `+id: ` marker (the line
with its first five characters dropped), whitespace-stripped. -/
def claimAddedTermIdsGo : List String → Bool → List String
  | [], _ => []
  | line :: rest, inNewTerm =>
    if pyStartsWith line "+[Term]" then claimAddedTermIdsGo rest true
    else if pyStartsWith line "+id: " && inNewTerm then
      pyStrip (pyDrop 5 line) :: claimAddedTermIdsGo rest false
    else claimAddedTermIdsGo rest inNewTerm

/-- A fixed evaluation record used to build concrete LLM judge outputs. -/
def stubEvaluation : ProposedChangeEvaluation :=
  { overall_score := 0, evaluation := "", incorrect_changes := [], missing_changes := [] }

/-- A concrete LLM judge output used as the return value of the stub agent. -/
def stubLLMJudgeComparison : LLMJudgeComparison :=
  { similarity := 1, difficulty := 0, issue_clarity := 0, logical_consistency := 0,
    confidence := 0, suggestions_for_users := "", left_evaluation := stubEvaluation,
    right_evaluation := stubEvaluation, score_diff := 0, comments := "" }

/-- An LLM judge output whose `similarity` lies outside `[0, 1]`; nothing in
the models rejects it. -/
def outOfRangeLLMJudgeComparison : LLMJudgeComparison :=
  { stubLLMJudgeComparison with similarity := 2 }

/-- A concrete stand-in for the external LLM agent. -/
def stubAgentRun : String → LLMJudgeComparison := fun _ => stubLLMJudgeComparison

/-- A concrete stand-in for the external `yaml.dump` serializer. -/
def stubYamlDump : LLMJudgeComparison → String := fun _ => ""

/-- A concrete benchmark record with a one-line target diff. -/
def prExample : PRBenchmark :=
  { number := 1, title := "t", body := none, url := "u", created_at := 0,
    linked_issues := [], diff := some "+a" }

/-- A concrete benchmark record whose diff has a `+id: ` line containing the
marker twice. -/
def prReplaceEdge : PRBenchmark :=
  { number := 2, title := "", body := none, url := "", created_at := 0,
    linked_issues := [], diff := some "+[Term]\n+id: a +id: b" }

open metadiff_judge

theorem length_filter_add_length_filter_not (p : α → Bool) (l : List α) :
    (l.filter p).length + (l.filter (fun a => !p a)).length = l.length := by
  induction l with
  | nil => rfl
  | cons a t ih => cases h : p a <;> simp [List.filter_cons, h] <;> omega

theorem unionOf_length (d1 d2 : DiffArg) :
    (unionOf d1 d2).length
      = (interOf d1 d2).length + (uniqueOf d1 d2).length + (uniqueOf d2 d1).length := by
  have h := length_filter_add_length_filter_not
    (fun c => decide (c ∈ sdOf d2)) (sdOf d1)
  simp only [unionOf, List.length_append, interOf, uniqueOf] at *
  omega

theorem unionOf_isEmpty_iff (d1 d2 : DiffArg) :
    (unionOf d1 d2).isEmpty = true
      ↔ interOf d1 d2 = [] ∧ uniqueOf d1 d2 = [] ∧ uniqueOf d2 d1 = [] := by
  rw [List.isEmpty_iff]
  have h := unionOf_length d1 d2
  constructor
  · intro he
    rw [he] at h
    simp only [List.length_nil] at h
    refine ⟨?_, ?_, ?_⟩ <;> rw [← List.length_eq_zero] <;> omega
  · rintro ⟨h1, h2, h3⟩
    rw [← List.length_eq_zero]
    rw [h1, h2, h3] at h
    simpa using h

theorem uniqueOf_self (A : DiffArg) : uniqueOf A A = [] := by
  apply List.filter_eq_nil_iff.mpr
  intro a ha
  simp [ha]

theorem interOf_self (A : DiffArg) : interOf A A = sdOf A := by
  apply List.filter_eq_self.mpr
  intro a ha
  simp [ha]

/-- C2: for every diff input `A`, `compare(A, A)` yields `identical = true`,
`similarity = 1.0`, and empty `changes_in_diff1` and `changes_in_diff2`. -/
theorem compare_diffs_idempotent (A : DiffArg) :
    (compare_diffs A A).identical = true
    ∧ (compare_diffs A A).similarity = 1
    ∧ (compare_diffs A A).changes_in_diff1 = []
    ∧ (compare_diffs A A).changes_in_diff2 = [] := by
  have hU : unionOf A A = sdOf A := by
    rw [unionOf, uniqueOf_self, List.append_nil]
  refine ⟨by simp [compare_diffs], ?_, uniqueOf_self A, uniqueOf_self A⟩
  simp only [compare_diffs, hU, interOf_self]
  by_cases h : (sdOf A).isEmpty
  · rw [if_pos h]
  · rw [if_neg h]
    apply div_self
    have : sdOf A ≠ [] := by
      intro hc
      rw [hc] at h
      exact h rfl
    have hlen : (sdOf A).length ≠ 0 := by
      intro hc
      exact this (List.length_eq_zero.mp hc)
    exact_mod_cast hlen

/-- C1 (amended): the similarity is the Jaccard-style ratio
`|common| / (|common| + |changes_in_diff1| + |changes_in_diff2|)` over the
deduplicated change sets, with the value 1 rather than a division by zero
when both sides have zero changes; `identical`, however, is raw-text
equality of the two diffs after trimming (in particular it is true for two
empty diffs), not a consequence of both change sets being empty. -/
theorem similarity_jaccard (d1 d2 : DiffArg) :
    (compare_diffs d1 d2).similarity
      = (if (compare_diffs d1 d2).changes_in_common = []
            ∧ (compare_diffs d1 d2).changes_in_diff1 = []
            ∧ (compare_diffs d1 d2).changes_in_diff2 = []
          then (1 : Rat)
          else ((compare_diffs d1 d2).changes_in_common.length : Rat)
            / (((compare_diffs d1 d2).changes_in_common.length
                + (compare_diffs d1 d2).changes_in_diff1.length
                + (compare_diffs d1 d2).changes_in_diff2.length : Nat) : Rat))
    ∧ ((compare_diffs d1 d2).identical = true
        ↔ pyStrip (normalizeDiffArg d1) = pyStrip (normalizeDiffArg d2)) := by
  constructor
  · simp only [compare_diffs]
    by_cases h : interOf d1 d2 = [] ∧ uniqueOf d1 d2 = [] ∧ uniqueOf d2 d1 = []
    · rw [if_pos ((unionOf_isEmpty_iff d1 d2).mpr h), if_pos h]
    · rw [if_neg (fun hc => h ((unionOf_isEmpty_iff d1 d2).mp hc)), if_neg h,
        unionOf_length]
  · simp [compare_diffs]

/-- C1 (counterexample): two diffs made only of context lines both parse to
zero changes, so similarity is 1, yet they are not `identical`. -/
theorem zero_changes_not_identical :
    (compare_diffs (.str "ctx1") (.str "ctx2")).changes_in_common = []
    ∧ (compare_diffs (.str "ctx1") (.str "ctx2")).changes_in_diff1 = []
    ∧ (compare_diffs (.str "ctx1") (.str "ctx2")).changes_in_diff2 = []
    ∧ (compare_diffs (.str "ctx1") (.str "ctx2")).similarity = 1
    ∧ ¬ (compare_diffs (.str "ctx1") (.str "ctx2")).identical = true := by
  refine ⟨by decide, by decide, by decide, by decide, by decide⟩

/-- C3: a diff supplied as a pre-split list of lines produces the same
comparison result as the newline-joined string, both for the comparison
engine and for the LLM judge's `compare_diffs_impl`, which joins a list
argument with newlines before building the agent input. -/
theorem list_string_input_equiv (L : List String) (d : DiffArg)
    (agentRun : String → LLMJudgeComparison) (issue_text : String) :
    compare_diffs (.lines L) d = compare_diffs (.str (joinLines L)) d
    ∧ compare_diffs d (.lines L) = compare_diffs d (.str (joinLines L))
    ∧ llm_judge.compare_diffs_impl agentRun (.lines L) d issue_text
        = llm_judge.compare_diffs_impl agentRun (.str (joinLines L)) d issue_text
    ∧ llm_judge.compare_diffs_impl agentRun d (.lines L) issue_text
        = llm_judge.compare_diffs_impl agentRun d (.str (joinLines L)) issue_text :=
  ⟨rfl, rfl, rfl, rfl⟩

/-- C4 (amended): the similarity produced by the comparison engine always
lies in `[0, 1]`, but the `Comparison` model itself does not enforce the
range: its `similarity` field is an unconstrained float, and validation
accepts every value. -/
theorem similarity_bounds (d1 d2 : DiffArg) (x : Rat) :
    (0 ≤ (compare_diffs d1 d2).similarity ∧ (compare_diffs d1 d2).similarity ≤ 1)
    ∧ validateSimilarity x = .ok x := by
  refine ⟨?_, rfl⟩
  simp only [compare_diffs]
  by_cases h : (unionOf d1 d2).isEmpty
  · rw [if_pos h]
    norm_num
  · rw [if_neg h]
    constructor
    · apply div_nonneg <;> positivity
    · apply div_le_one_of_le₀
      · have : (interOf d1 d2).length ≤ (unionOf d1 d2).length := by
          rw [unionOf_length]
          omega
        exact_mod_cast this
      · positivity

/-- C4 (counterexample): an `LLMJudgeComparison` whose `similarity` is 2 is
accepted by the model's validation, so not every comparison instance holds a
similarity in `[0, 1]`. -/
theorem similarity_validation_unbounded :
    validateSimilarity outOfRangeLLMJudgeComparison.similarity = .ok 2
    ∧ ¬ (outOfRangeLLMJudgeComparison.similarity ≤ 1) := by
  constructor
  · rfl
  · norm_num [outOfRangeLLMJudgeComparison, stubLLMJudgeComparison]

/-- C9: `render_change` maps direction 1 to an `ADD` markdown bullet and
every other integer direction to a `DEL` bullet, and (being total) never
raises. -/
theorem render_change_direction (dirn : Int) (text : String) :
    (dirn = 1 → markdown.render_change (dirn, text) = "- ADD :: `" ++ text ++ "`\n")
    ∧ (dirn ≠ 1 → markdown.render_change (dirn, text) = "- DEL :: `" ++ text ++ "`\n") := by
  constructor <;> intro h <;> simp [markdown.render_change, h]

/-- C9 (witness): `render_change` evaluated at direction 1 and at the
non-1 direction 0. -/
theorem render_change_direction_witness :
    ((1 : Int) = 1 ∧ markdown.render_change (1, "x") = "- ADD :: `x`\n")
    ∧ ((0 : Int) ≠ 1 ∧ markdown.render_change (0, "x") = "- DEL :: `x`\n") :=
  ⟨⟨rfl, (render_change_direction 1 "x").1 rfl⟩,
    ⟨by decide, (render_change_direction 0 "x").2 (by decide)⟩⟩

theorem commentLoop_eq_takeWhile (cutoff : Int) (l : List GitHubComment) :
    commentLoop true cutoff l
      = (l.takeWhile (fun c => decide (c.created_at < cutoff))).map commentBlock := by
  induction l with
  | nil => rfl
  | cons c rest ih =>
    by_cases hc : c.created_at ≥ cutoff
    · rw [commentLoop, if_pos ⟨hc, rfl⟩]
      have : decide (c.created_at < cutoff) = false := by
        simp
        omega
      rw [List.takeWhile_cons, this]
      rfl
    · rw [commentLoop, if_neg (fun h => hc h.1)]
      have : decide (c.created_at < cutoff) = true := by
        simp
        omega
      rw [List.takeWhile_cons, this, ih]
      rfl

theorem issueLoop_eq_flatMap (cutoff : Int) (l : List GitHubIssue) :
    issueLoop true cutoff l
      = (l.filter (fun i => decide (i.created_at ≤ cutoff))).flatMap
          (fun i => issueHeaderBlock i
            :: (i.comments.takeWhile (fun c => decide (c.created_at < cutoff))).map commentBlock) := by
  induction l with
  | nil => rfl
  | cons i rest ih =>
    by_cases hi : i.created_at > cutoff
    · rw [issueLoop, if_pos hi, ih]
      have : decide (i.created_at ≤ cutoff) = false := by
        simp
        omega
      rw [List.filter_cons, this]
      simp
    · rw [issueLoop, if_neg hi, ih]
      have : decide (i.created_at ≤ cutoff) = true := by
        simp
        omega
      rw [List.filter_cons, this]
      simp only [List.flatMap_cons]
      have hc' : (if i.comments.isEmpty then [] else commentLoop true cutoff i.comments)
          = (i.comments.takeWhile (fun c => decide (c.created_at < cutoff))).map commentBlock := by
        by_cases hc : i.comments.isEmpty
        · rw [if_pos hc]
          rw [List.isEmpty_iff] at hc
          rw [hc]
          rfl
        · rw [if_neg hc, commentLoop_eq_takeWhile]
      rw [hc']
      simp

/-- C8: `calculate_input_text` with `exclude_post_pr_comments = true` skips
every linked issue created strictly after the PR, and within each included
issue emits comments in order up to (and excluding) the first comment
created at or after the PR's creation date; the break also drops every later
comment, even ones dated before the cutoff. -/
theorem input_text_pr_cutoff (r : PRBenchmark) :
    r.calculate_input_text true
      = pyJoin "\n\n"
          ((r.linked_issues.filter (fun i => decide (i.created_at ≤ r.created_at))).flatMap
            (fun i => issueHeaderBlock i
              :: (i.comments.takeWhile
                  (fun c => decide (c.created_at < r.created_at))).map commentBlock)) := by
  rw [PRBenchmark.calculate_input_text, issueLoop_eq_flatMap]

theorem addedTermIdsGo_eq_map_select (l : List String) (b : Bool) :
    addedTermIdsGo l b
      = (selectAddedIdLines l b).map (fun line => pyStrip (pyReplace line "+id: " "")) := by
  induction l generalizing b with
  | nil => rfl
  | cons line rest ih =>
    by_cases h1 : pyStartsWith line "+[Term]" = true
    · rw [addedTermIdsGo, if_pos h1, selectAddedIdLines, if_pos h1, ih]
    · by_cases h2 : (pyStartsWith line "+id: " && b) = true
      · rw [addedTermIdsGo, if_neg h1, if_pos h2, selectAddedIdLines, if_neg h1, if_pos h2,
          List.map_cons, ih]
      · rw [addedTermIdsGo, if_neg h1, if_neg h2, selectAddedIdLines, if_neg h1, if_neg h2, ih]

/-- C10 (amended): for a benchmark whose `diff` is present,
`get_added_term_ids` returns, in order of appearance, for each `+[Term]`
line the first subsequent `+id: ` line with every occurrence of the
substring `+id: ` removed (Python `line.replace('+id: ', '')`) and
whitespace-stripped — which equals the text following the marker whenever
`+id: ` occurs only as the line's prefix — taking at most one id per
`+[Term]` occurrence; when `diff` is `None` the method raises instead. -/
theorem added_term_ids_characterization (r : PRBenchmark) :
    r.get_added_term_ids
      = match r.diff with
        | none => .error "AttributeError"
        | some d =>
          .ok ((selectAddedIdLines (pySplit '\n' d) false).map
            (fun line => pyStrip (pyReplace line "+id: " ""))) := by
  cases hd : r.diff with
  | none => simp [PRBenchmark.get_added_term_ids, hd]
  | some d => simp [PRBenchmark.get_added_term_ids, hd, addedTermIdsGo_eq_map_select]

/-- C10 (counterexample): on a `+id: ` line containing the marker twice the
method removes every occurrence, not just the leading marker, so the
returned id is not the text following `+id: `. -/
theorem added_term_ids_replace_all :
    prReplaceEdge.get_added_term_ids = .ok ["a b"]
    ∧ claimAddedTermIdsGo (pySplit '\n' "+[Term]\n+id: a +id: b") false = ["a +id: b"]
    ∧ (["a b"] : List String) ≠ ["a +id: b"] := by
  refine ⟨rfl, by decide, by decide⟩

theorem judgeKey_metadiff_eq :
    cli.judgeKey "ontoeval.judges.metadiff_judge" = "metadiff_judge" := rfl

theorem judgeKey_llm_eq :
    cli.judgeKey "ontoeval.judges.llm_judge" = "llm_judge" := rfl

theorem render_sections (yamlDump : LLMJudgeComparison → String) (r : PRBenchmark)
    (md : MetadiffComparison) (lj : LLMJudgeComparison)
    (h1 : markdown.lookupJudge "metadiff_judge" r.comparisons = some (.metadiff md))
    (h2 : markdown.lookupJudge "llm_judge" r.comparisons = some (.llm lj)) :
    ∃ pre post, markdown.render_result_iter yamlDump r
      = some (pre
          ++ ("Unique to target:\n"
            :: (md.changes_in_diff1.map markdown.render_change
              ++ ("Unique to prediction:\n"
                :: (md.changes_in_diff2.map markdown.render_change ++ post))))) := by
  refine ⟨["# " ++ toString r.pr_number ++ " - " ++ r.title,
      "\n - [" ++ r.url ++ "](" ++ r.url ++ ")\n",
      "\n" ++ pyStrOpt r.body ++ "\n",
      "## Metadiff (" ++ toString md.similarity ++ ")\n",
      md.metadiff_color_html],
    ["## LLM Judge\n", "```yaml", yamlDump lj, "```", "\n## Issues\n"]
      ++ r.linked_issues.flatMap (fun issue =>
        ["- [" ++ issue.title ++ "](" ++ issue.url ++ ")\n", pyStrOpt issue.body]), ?_⟩
  simp only [markdown.render_result_iter, h1, h2]
  simp

/-- C5: the run_all step invokes the comparison with the target diff first
and the predicted diff second; the result's `changes_in_diff1` is recorded
as `changes_unique_to_target` and rendered under the `Unique to target`
section, and `changes_in_diff2` as `changes_unique_to_prediction` under
`Unique to prediction`. -/
theorem run_all_wiring (agentRun : String → LLMJudgeComparison)
    (yamlDump : LLMJudgeComparison → String) (pr : PRBenchmark)
    (target result : String) (h : pr.diff = some target) :
    ∃ pr', cli.processPR agentRun true pr result = some pr'
      ∧ pr'.changes_unique_to_target
          = some (compare_diffs (.str target) (.str result)).changes_in_diff1
      ∧ pr'.changes_unique_to_prediction
          = some (compare_diffs (.str target) (.str result)).changes_in_diff2
      ∧ ∃ pre post, markdown.render_result_iter yamlDump pr'
          = some (pre
              ++ ("Unique to target:\n"
                :: ((compare_diffs (.str target) (.str result)).changes_in_diff1.map markdown.render_change
                  ++ ("Unique to prediction:\n"
                    :: ((compare_diffs (.str target) (.str result)).changes_in_diff2.map markdown.render_change
                      ++ post))))) := by
  simp only [cli.processPR, h]
  refine ⟨_, rfl, rfl, rfl, ?_⟩
  exact render_sections yamlDump _ _ _ rfl rfl

/-- C5 (witness): the wiring theorem evaluated on a concrete record with
target diff `+a` and predicted diff `+b`. -/
theorem run_all_wiring_witness :
    prExample.diff = some "+a"
    ∧ ∃ pr', cli.processPR stubAgentRun true prExample "+b" = some pr'
        ∧ pr'.changes_unique_to_target
            = some (compare_diffs (.str "+a") (.str "+b")).changes_in_diff1
        ∧ pr'.changes_unique_to_prediction
            = some (compare_diffs (.str "+a") (.str "+b")).changes_in_diff2
        ∧ ∃ pre post, markdown.render_result_iter stubYamlDump pr'
            = some (pre
                ++ ("Unique to target:\n"
                  :: ((compare_diffs (.str "+a") (.str "+b")).changes_in_diff1.map markdown.render_change
                    ++ ("Unique to prediction:\n"
                      :: ((compare_diffs (.str "+a") (.str "+b")).changes_in_diff2.map markdown.render_change
                        ++ post))))) :=
  ⟨rfl, run_all_wiring stubAgentRun stubYamlDump prExample "+a" "+b" rfl⟩

/-- C6: the comparisons mapping built by the run_all step has exactly one
entry per judge that ran, keyed by the last dot-separated component of the
judge module's name (`metadiff_judge`, `llm_judge`), and the `llm_judge`
entry is present iff the use-llm-judge option is enabled. -/
theorem comparisons_judge_keys (agentRun : String → LLMJudgeComparison) (useLlm : Bool)
    (pr : PRBenchmark) (target result : String) (h : pr.diff = some target) :
    cli.judgeKey "ontoeval.judges.metadiff_judge" = "metadiff_judge"
    ∧ cli.judgeKey "ontoeval.judges.llm_judge" = "llm_judge"
    ∧ ∃ pr', cli.processPR agentRun useLlm pr result = some pr'
        ∧ pr'.comparisons.map Prod.fst
            = "metadiff_judge" :: (if useLlm then ["llm_judge"] else [])
        ∧ (pr'.comparisons.map Prod.fst).Nodup
        ∧ (markdown.lookupJudge "llm_judge" pr'.comparisons).isSome = useLlm := by
  refine ⟨rfl, rfl, ?_⟩
  simp only [cli.processPR, h]
  refine ⟨_, rfl, ?_, ?_, ?_⟩ <;>
    cases useLlm <;>
      simp [markdown.lookupJudge, judgeKey_metadiff_eq, judgeKey_llm_eq]

/-- C6 (witness): the judge-key theorem evaluated on a concrete record with
the LLM judge enabled. -/
theorem comparisons_judge_keys_witness :
    prExample.diff = some "+a"
    ∧ (cli.judgeKey "ontoeval.judges.metadiff_judge" = "metadiff_judge"
      ∧ cli.judgeKey "ontoeval.judges.llm_judge" = "llm_judge"
      ∧ ∃ pr', cli.processPR stubAgentRun true prExample "+b" = some pr'
          ∧ pr'.comparisons.map Prod.fst
              = "metadiff_judge" :: (if true then ["llm_judge"] else [])
          ∧ (pr'.comparisons.map Prod.fst).Nodup
          ∧ (markdown.lookupJudge "llm_judge" pr'.comparisons).isSome = true) :=
  ⟨rfl, comparisons_judge_keys stubAgentRun true prExample "+a" "+b" rfl⟩

/-- C7 (amended): the joblib cache wrapped around `compare_diffs_impl` is
keyed on the raw call arguments `(diff1, diff2, issue_text)` as supplied,
before list-to-string normalization: two calls resolve to the same cache
entry iff their raw arguments are equal, so a pre-split list and its
newline-joined string occupy distinct entries; the computed result is
nevertheless the same for any two calls whose diff inputs normalize to the
same texts. -/
theorem cache_key_raw_arguments (agentRun : String → LLMJudgeComparison)
    (d1 d2 d1' d2' : DiffArg) (i i' : String) :
    (llm_judge.cacheKey d1 d2 i = llm_judge.cacheKey d1' d2' i'
      ↔ d1 = d1' ∧ d2 = d2' ∧ i = i')
    ∧ (normalizeDiffArg d1 = normalizeDiffArg d1'
        → normalizeDiffArg d2 = normalizeDiffArg d2'
        → llm_judge.compare_diffs_impl agentRun d1 d2 i
            = llm_judge.compare_diffs_impl agentRun d1' d2' i) := by
  constructor
  · simp [llm_judge.cacheKey]
  · intro h1 h2
    simp [llm_judge.compare_diffs_impl, h1, h2]

/-- C7 (counterexample): a diff supplied as the list `["+a"]` and as the
string `"+a"` normalize to the same text but produce different cache keys,
so calls whose inputs normalize to the same texts do not resolve to the same
cache entry. -/
theorem cache_key_not_normalized :
    normalizeDiffArg (.lines ["+a"]) = normalizeDiffArg (.str "+a")
    ∧ llm_judge.cacheKey (.lines ["+a"]) (.str "") ""
        ≠ llm_judge.cacheKey (.str "+a") (.str "") "" :=
  ⟨rfl, by decide⟩

/-- C7 (witness): the amended cache theorem evaluated at a list argument and
its newline-joined string. -/
theorem cache_key_raw_arguments_witness :
    normalizeDiffArg (.lines ["+a"]) = normalizeDiffArg (.str "+a")
    ∧ llm_judge.compare_diffs_impl stubAgentRun (.lines ["+a"]) (.str "+b") "issue"
        = llm_judge.compare_diffs_impl stubAgentRun (.str "+a") (.str "+b") "issue" :=
  ⟨rfl,
    (cache_key_raw_arguments stubAgentRun (.lines ["+a"]) (.str "+b") (.str "+a")
      (.str "+b") "issue" "issue").2 rfl rfl⟩

end Ontoeval
